import Mathlib

/-!
Verification of the Wolffia desktop backend commands
(src/src-tauri/src/commands.rs).

The backend is a thin bridge between a web front end and the operating
system: read a file, write a file (creating missing parent directories),
resolve the application data directory, show native save and open
dialogs, and report that the desktop shell is active.

Embedding choices:
* a filesystem path is modelled as its list of components, so the string
  "a/b/c" becomes ["a", "b", "c"]; the Rust `Path::parent` of a
  nonempty path drops the last component, and of the empty path is none;
* the operating-system state `FS` records the text files, the existing
  directories, and two fault-injection sets naming the directories the OS
  refuses to create and the paths it refuses to write (permission errors
  and the like), so that the error paths of the Rust code are reachable
  in the model;
* `Result<T, String>` becomes `Except String T`; commands that mutate the
  filesystem also return the post state;
* the native dialogs are modelled by a `DialogEnv` carrying the response
  the user gives to each picker (`none` meaning cancellation), matching
  the return shape of `blocking_save_file`, `blocking_pick_file` and
  `blocking_pick_files`.
-/

set_option linter.unusedVariables false

/-- A filesystem path, as its list of components. -/
abbrev FilePath := List String

/-- Operating-system filesystem state: the stored text files, the
existing directories, and the fault-injection sets (`failDirs` holds
directories whose creation the OS refuses, `failFiles` holds paths whose
write the OS refuses). -/
structure FS where
  files : List (FilePath × String)
  dirs : List FilePath
  failDirs : List FilePath
  failFiles : List FilePath
  deriving DecidableEq

/-- The OS display text of a missing-file error. -/
def osNotFoundMsg : String := "No such file or directory (os error 2)"

/-- The OS display text of a permission error. -/
def osDeniedMsg : String := "Permission denied (os error 13)"

/-- First-match association lookup in the file table. -/
def lookupFile : List (FilePath × String) → FilePath → Option String
  | [], _ => none
  | (q, c) :: rest, p => if q = p then some c else lookupFile rest p

/-- Rust `Path::parent`, on component lists: none for the empty path,
otherwise the path without its last component. -/
def parentOf (p : FilePath) : Option FilePath :=
  match p with
  | [] => none
  | _ :: _ => some p.dropLast

/-- The chain of ancestors of `acc ++ p` that strictly extend `acc`,
shortest first. -/
def chainFrom (acc : FilePath) : FilePath → List FilePath
  | [] => []
  | c :: rest => (acc ++ [c]) :: chainFrom (acc ++ [c]) rest

/-- All nonempty ancestors of a path, shortest first: the directories
`fs::create_dir_all` makes. -/
def dirChain (p : FilePath) : List FilePath := chainFrom [] p

/-- A directory exists when it is the process working directory `[]` or
is recorded in the state. -/
def dirExists (fs : FS) (d : FilePath) : Prop := d = [] ∨ d ∈ fs.dirs

/-- Create a chain of directories left to right, stopping with the OS
error at the first component the OS refuses and keeping the directories
already made. -/
def mkChain (fs : FS) : List FilePath → Except String Unit × FS
  | [] => (.ok (), fs)
  | d :: rest =>
    if d ∈ fs.failDirs then (.error osDeniedMsg, fs)
    else mkChain { fs with dirs := d :: fs.dirs } rest

/-- Rust `fs::create_dir_all`: create every ancestor of `p` in order; the
empty path is an ok no-op. -/
def osCreateDirAll (fs : FS) (p : FilePath) : Except String Unit × FS :=
  mkChain fs (dirChain p)

/-- Rust `fs::write`: truncate-create write of `content` at `p`.  It
fails when the path is empty, when the OS refuses the write, or when the
parent directory is missing; on success the new contents replace any
previous entry at `p`. -/
def osWrite (fs : FS) (p : FilePath) (content : String) : Except String Unit × FS :=
  match parentOf p with
  | none => (.error osNotFoundMsg, fs)
  | some par =>
    if p ∈ fs.failFiles then (.error osDeniedMsg, fs)
    else if par = [] ∨ par ∈ fs.dirs then
      (.ok (), { fs with files := (p, content) :: fs.files.filter fun kv => decide (kv.1 ≠ p) })
    else (.error osNotFoundMsg, fs)

/-- Rust `fs::read_to_string`: the stored text, or the OS missing-file
error. -/
def osRead (fs : FS) (p : FilePath) : Except String String :=
  match lookupFile fs.files p with
  | some c => .ok c
  | none => .error osNotFoundMsg

/-- The toolkit application handle, carrying the outcome of
`app.path().app_data_dir()` already converted to a string. -/
structure AppHandle where
  appDataDir : Except String String

/-- `get_data_dir`: relay the resolved application data directory,
propagating a resolution failure as its stringified error with no added
text. -/
def get_data_dir (app : AppHandle) : Except String String :=
  match app.appDataDir with
  | .ok p => .ok p
  | .error e => .error e

/-- `read_file`: read the file as text, wrapping an OS failure with the
static context text. -/
def read_file (fs : FS) (path : FilePath) : Except String String :=
  match osRead fs path with
  | .ok c => .ok c
  | .error e => .error ("Failed to read file: " ++ e)

/-- The `if let Some(parent) = ... \x7b create_dir_all(parent)? \x7d`
step of `write_file`: ensure the parent directory exists, wrapping a
creation failure with its static context text. -/
def ensureParentDir (fs : FS) (path : FilePath) : Except String Unit × FS :=
  match parentOf path with
  | some par =>
    match osCreateDirAll fs par with
    | (.error e, fs1) => (.error ("Failed to create directory: " ++ e), fs1)
    | (.ok _, fs1) => (.ok (), fs1)
  | none => (.ok (), fs)

/-- `write_file`: ensure the parent directory exists, then write the
content, wrapping a write failure with its static context text. -/
def write_file (fs : FS) (path : FilePath) (content : String) : Except String Unit × FS :=
  match ensureParentDir fs path with
  | (.error e, fs1) => (.error e, fs1)
  | (.ok _, fs1) =>
    match osWrite fs1 path content with
    | (.error e, fs2) => (.error ("Failed to write file: " ++ e), fs2)
    | (.ok _, fs2) => (.ok (), fs2)

/-- A dialog filter: display label and file extensions. -/
abbrev DialogFilter := String × List String

/-- The responses the user gives to the native pickers; `none` is
cancellation. -/
structure DialogEnv where
  saveChoice : Option String
  pickFilesChoice : Option (List String)
  pickFileChoice : Option String

/-- `show_save_dialog`: present the save picker with the given default
name and filters; return the chosen path, or none when cancelled. -/
def show_save_dialog (env : DialogEnv) (default_name : String)
    (filters : List DialogFilter) : Except String (Option String) :=
  .ok (env.saveChoice.map fun p => p)

/-- `show_open_dialog`: present the open picker; with `multiple` return
all chosen paths (empty when cancelled), otherwise the single chosen
path as a one-element list (empty when cancelled). -/
def show_open_dialog (env : DialogEnv) (multiple : Bool)
    (filters : List DialogFilter) : Except String (List String) :=
  if multiple then
    .ok ((env.pickFilesChoice.getD []).map fun p => p)
  else
    .ok (match env.pickFileChoice with
      | some p => [p]
      | none => [])

/-- `is_desktop`: the fixed capability probe. -/
def is_desktop : Bool := true

/-! Helper lemmas about the OS model. -/

/-- `mkChain` only touches the directory set: the files and both fault
sets of the resulting state are those of the input state. -/
theorem mkChain_preserve (ds : List FilePath) (fs : FS) :
    (mkChain fs ds).2.files = fs.files ∧
    (mkChain fs ds).2.failDirs = fs.failDirs ∧
    (mkChain fs ds).2.failFiles = fs.failFiles := by
  induction ds generalizing fs with
  | nil => exact ⟨rfl, rfl, rfl⟩
  | cons d rest ih =>
    by_cases hd : d ∈ fs.failDirs
    · simp [mkChain, hd]
    · simpa [mkChain, hd] using ih { fs with dirs := d :: fs.dirs }

/-- When no directory of the chain is refused, `mkChain` succeeds, keeps
every existing directory, and records every directory of the chain. -/
theorem mkChain_ok (ds : List FilePath) (fs : FS)
    (hnf : ∀ d ∈ ds, d ∉ fs.failDirs) :
    (mkChain fs ds).1 = .ok () ∧
    (∀ x ∈ fs.dirs, x ∈ (mkChain fs ds).2.dirs) ∧
    (∀ d ∈ ds, d ∈ (mkChain fs ds).2.dirs) := by
  induction ds generalizing fs with
  | nil => exact ⟨rfl, fun x hx => hx, by simp⟩
  | cons d rest ih =>
    have hd : d ∉ fs.failDirs := hnf d (by simp)
    have hrest : ∀ x ∈ rest, x ∉ ({ fs with dirs := d :: fs.dirs } : FS).failDirs :=
      fun x hx => hnf x (by simp [hx])
    obtain ⟨h1, h2, h3⟩ := ih { fs with dirs := d :: fs.dirs } hrest
    refine ⟨by simpa [mkChain, hd] using h1, ?_, ?_⟩
    · intro x hx
      simpa [mkChain, hd] using h2 x (by simp [hx])
    · intro x hx
      rcases List.mem_cons.mp hx with h | h
      · subst h
        simpa [mkChain, hd] using h2 x (by simp)
      · simpa [mkChain, hd] using h3 x h

/-- A nonempty path appears in its own ancestor chain. -/
theorem chainFrom_self (p : FilePath) : ∀ acc, p ≠ [] → (acc ++ p) ∈ chainFrom acc p := by
  induction p with
  | nil => intro acc h; exact absurd rfl h
  | cons c rest ih =>
    intro acc _
    by_cases hr : rest = []
    · subst hr; simp [chainFrom]
    · have := ih (acc ++ [c]) hr
      simp only [chainFrom, List.mem_cons]
      right
      simpa using this

/-- A nonempty path is one of the directories `create_dir_all` makes for
it. -/
theorem dirChain_self (p : FilePath) (h : p ≠ []) : p ∈ dirChain p := by
  simpa [dirChain] using chainFrom_self p [] h

/-- A successful `osWrite` stores exactly the written content at the
path. -/
theorem osWrite_ok_lookup (fs fs2 : FS) (p : FilePath) (c : String)
    (h : osWrite fs p c = (.ok (), fs2)) : lookupFile fs2.files p = some c := by
  unfold osWrite at h
  cases hp : parentOf p with
  | none => rw [hp] at h; simp at h
  | some par =>
    rw [hp] at h
    simp only at h
    by_cases hff : p ∈ fs.failFiles
    · rw [if_pos hff] at h; simp at h
    · rw [if_neg hff] at h
      by_cases hd : par = [] ∨ par ∈ fs.dirs
      · rw [if_pos hd] at h
        have h2 := (Prod.mk.injEq _ _ _ _).mp h
        rw [← h2.2]
        simp [lookupFile]
      · rw [if_neg hd] at h; simp at h

/-- A successful `write_file` stores exactly the written content at the
path. -/
theorem write_file_stores (fs fs2 : FS) (path : FilePath) (content : String)
    (h : write_file fs path content = (.ok (), fs2)) :
    lookupFile fs2.files path = some content := by
  unfold write_file at h
  cases hq : ensureParentDir fs path with
  | mk r1 fsa =>
    rw [hq] at h
    cases r1 with
    | error e => simp at h
    | ok u =>
      dsimp only at h
      cases hw : osWrite fsa path content with
      | mk r2 fsb =>
        rw [hw] at h
        cases r2 with
        | error e => simp at h
        | ok u2 =>
          simp only [Prod.mk.injEq] at h
          rw [← h.2]
          cases u2
          exact osWrite_ok_lookup fsa fsb path content hw

/-- An `ensureParentDir` failure carries the directory-creation context
text. -/
theorem ensureParentDir_error (fs fs1 : FS) (path : FilePath) (e : String)
    (h : ensureParentDir fs path = (.error e, fs1)) :
    ∃ os, e = "Failed to create directory: " ++ os := by
  unfold ensureParentDir at h
  cases hp : parentOf path with
  | none => rw [hp] at h; simp at h
  | some par =>
    rw [hp] at h
    dsimp only at h
    cases hc : osCreateDirAll fs par with
    | mk r fsa =>
      rw [hc] at h
      cases r with
      | error os =>
        simp only [Prod.mk.injEq, Except.error.injEq] at h
        exact ⟨os, h.1.symm⟩
      | ok u => simp at h

/-! Claim theorems. -/

/-- C1: for every path whose parent directory does not yet exist and at
which the OS injects no fault, `write_file` creates the parent directory
chain recursively, writes the content, and returns success; afterwards
the parent directory exists. -/
theorem write_file_creates_missing_parent (fs : FS) (path : FilePath)
    (content : String) (par : FilePath)
    (hpar : parentOf path = some par)
    (hmissing : ¬ dirExists fs par)
    (hnd : ∀ d ∈ dirChain par, d ∉ fs.failDirs)
    (hnf : path ∉ fs.failFiles) :
    ∃ fs2, write_file fs path content = (.ok (), fs2)
      ∧ dirExists fs2 par
      ∧ (∀ d ∈ dirChain par, d ∈ fs2.dirs)
      ∧ lookupFile fs2.files path = some content := by
  have hne : par ≠ [] := fun h => hmissing (Or.inl h)
  obtain ⟨hok, hkeep, hall⟩ := mkChain_ok (dirChain par) fs hnd
  obtain ⟨hfiles, hfd, hffp⟩ := mkChain_preserve (dirChain par) fs
  have hpair : mkChain fs (dirChain par) = (.ok (), (mkChain fs (dirChain par)).2) := by
    have heta : mkChain fs (dirChain par)
        = ((mkChain fs (dirChain par)).1, (mkChain fs (dirChain par)).2) := rfl
    rw [heta, hok]
  have hens : ensureParentDir fs path = (.ok (), (mkChain fs (dirChain par)).2) := by
    unfold ensureParentDir osCreateDirAll
    rw [hpar]
    dsimp only
    rw [hpair]
  have hmem : par ∈ (mkChain fs (dirChain par)).2.dirs := hall par (dirChain_self par hne)
  have hnf1 : path ∉ (mkChain fs (dirChain par)).2.failFiles := by
    rw [hffp]; exact hnf
  have hw : osWrite (mkChain fs (dirChain par)).2 path content =
      (.ok (), { (mkChain fs (dirChain par)).2 with
        files := (path, content) ::
          (mkChain fs (dirChain par)).2.files.filter fun kv => decide (kv.1 ≠ path) }) := by
    unfold osWrite
    rw [hpar]
    dsimp only
    rw [if_neg hnf1, if_pos (Or.inr hmem)]
  refine ⟨{ (mkChain fs (dirChain par)).2 with
      files := (path, content) ::
        (mkChain fs (dirChain par)).2.files.filter fun kv => decide (kv.1 ≠ path) },
    ?_, Or.inr hmem, ?_, ?_⟩
  · unfold write_file
    rw [hens]
    dsimp only
    rw [hw]
  · intro d hd
    exact hall d hd
  · simp [lookupFile]

/-- C1 witness: writing ["d", "f"] in the empty filesystem creates the
directory ["d"] and stores the content. -/
theorem write_file_creates_missing_parent_witness :
    ∃ fs2, write_file ⟨[], [], [], []⟩ ["d", "f"] "hello" = (.ok (), fs2)
      ∧ dirExists fs2 ["d"]
      ∧ (∀ d ∈ dirChain ["d"], d ∈ fs2.dirs)
      ∧ lookupFile fs2.files ["d", "f"] = some ("hello") :=
  write_file_creates_missing_parent ⟨[], [], [], []⟩ ["d", "f"] "hello" ["d"]
    rfl (by simp [dirExists]) (by simp) (by simp)

/-- C2: a successful `write_file` followed by `read_file` at the same
path returns exactly the written content. -/
theorem write_file_read_file_roundtrip (fs fs2 : FS) (path : FilePath)
    (content : String)
    (h : write_file fs path content = (.ok (), fs2)) :
    read_file fs2 path = .ok content := by
  unfold read_file osRead
  rw [write_file_stores fs fs2 path content h]

/-- C2 witness: the round trip at a concrete path and content. -/
theorem write_file_read_file_roundtrip_witness :
    read_file ⟨[(["d", "f"], "hi")], [["d"]], [], []⟩ ["d", "f"] = .ok ("hi") :=
  write_file_read_file_roundtrip ⟨[], [], [], []⟩
    ⟨[(["d", "f"], "hi")], [["d"]], [], []⟩ ["d", "f"] "hi" rfl

/-- C3: reading a path that holds no file returns an error whose text
contains the phrase "Failed to read file". -/
theorem read_file_missing_error (fs : FS) (path : FilePath)
    (h : lookupFile fs.files path = none) :
    ∃ e, read_file fs path = .error e
      ∧ ∃ pre post, e = pre ++ "Failed to read file" ++ post := by
  refine ⟨"Failed to read file: " ++ osNotFoundMsg, ?_, "", ": " ++ osNotFoundMsg, ?_⟩
  · unfold read_file osRead
    rw [h]
  · decide

/-- C3 witness: reading from the empty filesystem errs with the
phrase. -/
theorem read_file_missing_error_witness :
    ∃ e, read_file ⟨[], [], [], []⟩ ["x"] = .error e
      ∧ ∃ pre post, e = pre ++ "Failed to read file" ++ post :=
  read_file_missing_error ⟨[], [], [], []⟩ ["x"] rfl

/-- C4: the capability probe always reports the desktop shell. -/
theorem is_desktop_always_true : is_desktop = true := rfl

/-- C5: with `multiple = false` the open dialog returns at most one
path; with `multiple = true` every list of paths, of any length, is a
possible return value. -/
theorem show_open_dialog_multiplicity :
    (∀ (env : DialogEnv) (filters : List DialogFilter) (l : List String),
        show_open_dialog env false filters = .ok l → l.length ≤ 1)
    ∧ (∀ (l : List String) (filters : List DialogFilter),
        show_open_dialog ⟨none, some l, none⟩ true filters = .ok l) := by
  constructor
  · intro env filters l h
    unfold show_open_dialog at h
    rw [if_neg (by simp)] at h
    cases hc : env.pickFileChoice with
    | none =>
      rw [hc] at h
      simp only [Except.ok.injEq] at h
      rw [← h]
      simp
    | some p =>
      rw [hc] at h
      simp only [Except.ok.injEq] at h
      rw [← h]
      simp
  · intro l filters
    simp [show_open_dialog]

/-- C5 witness: a single-selection result of length one, and a
two-element multiple-selection result. -/
theorem show_open_dialog_multiplicity_witness :
    (["a"] : List String).length ≤ 1
    ∧ show_open_dialog ⟨none, some ["x", "y"], none⟩ true [] = .ok ["x", "y"] :=
  ⟨show_open_dialog_multiplicity.1 ⟨none, none, some ("a")⟩ [] ["a"] rfl,
   show_open_dialog_multiplicity.2 ["x", "y"] []⟩

/-- C6: cancelling the save dialog yields a successful absent path, and
cancelling the open dialog (either mode) yields a successful empty
list. -/
theorem dialog_cancel_empty_result (m : Option (List String)) (o s : Option String)
    (name : String) (filters : List DialogFilter) :
    show_save_dialog ⟨none, m, o⟩ name filters = .ok none
    ∧ show_open_dialog ⟨s, m, none⟩ false filters = .ok []
    ∧ show_open_dialog ⟨s, none, o⟩ true filters = .ok [] :=
  ⟨rfl, rfl, rfl⟩

/-- C7: every file-operation error is the underlying OS error with its
static context text, and a data-directory resolution failure is relayed
with no added text. -/
theorem error_message_format (app : AppHandle) (fs : FS) (path : FilePath)
    (content : String) :
    (∀ e, read_file fs path = .error e →
        ∃ os, osRead fs path = .error os ∧ e = "Failed to read file: " ++ os)
    ∧ (∀ e fs2, write_file fs path content = (.error e, fs2) →
        (∃ os, e = "Failed to create directory: " ++ os) ∨
        (∃ os, e = "Failed to write file: " ++ os))
    ∧ (∀ e, get_data_dir app = .error e → app.appDataDir = .error e) := by
  refine ⟨?_, ?_, ?_⟩
  · intro e h
    unfold read_file at h
    cases hr : osRead fs path with
    | ok c => rw [hr] at h; simp at h
    | error os =>
      rw [hr] at h
      simp only [Except.error.injEq] at h
      exact ⟨os, rfl, h.symm⟩
  · intro e fs2 h
    unfold write_file at h
    cases hq : ensureParentDir fs path with
    | mk r1 fsa =>
      rw [hq] at h
      cases r1 with
      | error e0 =>
        simp only [Prod.mk.injEq, Except.error.injEq] at h
        left
        obtain ⟨os, hos⟩ := ensureParentDir_error fs fsa path e0 hq
        exact ⟨os, by rw [← h.1, hos]⟩
      | ok u =>
        dsimp only at h
        cases hw : osWrite fsa path content with
        | mk r2 fsb =>
          rw [hw] at h
          cases r2 with
          | error e0 =>
            simp only [Prod.mk.injEq, Except.error.injEq] at h
            exact Or.inr ⟨e0, h.1.symm⟩
          | ok u2 => simp at h
  · intro e h
    unfold get_data_dir at h
    cases ha : app.appDataDir with
    | ok p => rw [ha] at h; simp at h
    | error e0 =>
      rw [ha] at h
      simp only [Except.error.injEq] at h
      rw [h]

/-- C7 witness: a concrete read error, a concrete directory-creation
error, and a concrete resolution error, each in the stated shape. -/
theorem error_message_format_witness :
    (∃ os, osRead ⟨[], [], [], []⟩ ["a"] = .error os ∧
        "Failed to read file: No such file or directory (os error 2)" =
          "Failed to read file: " ++ os)
    ∧ ((∃ os, "Failed to create directory: Permission denied (os error 13)" =
          "Failed to create directory: " ++ os) ∨
       (∃ os, "Failed to create directory: Permission denied (os error 13)" =
          "Failed to write file: " ++ os))
    ∧ AppHandle.appDataDir ⟨.error ("boom")⟩ = .error ("boom") :=
  ⟨(error_message_format ⟨.error ("boom")⟩ ⟨[], [], [], []⟩ ["a"] "c").1 _ rfl,
   (error_message_format ⟨.error ("boom")⟩ ⟨[], [], [["d"]], []⟩ ["d", "f"] "c").2.1
     _ ⟨[], [], [["d"]], []⟩ rfl,
   (error_message_format ⟨.error ("boom")⟩ ⟨[], [], [], []⟩ ["a"] "c").2.2 _ rfl⟩

/-- C8: when creating the parent directory fails, `write_file` returns
the directory-creation error at once and the file table, in particular
any file at the target path, is unchanged. -/
theorem write_file_dir_error_no_write (fs fs1 : FS) (path par : FilePath)
    (content e : String)
    (hpar : parentOf path = some par)
    (hfail : osCreateDirAll fs par = (.error e, fs1)) :
    write_file fs path content = (.error ("Failed to create directory: " ++ e), fs1)
    ∧ fs1.files = fs.files
    ∧ lookupFile fs1.files path = lookupFile fs.files path := by
  have hfiles : fs1.files = fs.files := by
    have hp := (mkChain_preserve (dirChain par) fs).1
    unfold osCreateDirAll at hfail
    rw [hfail] at hp
    exact hp
  have hens : ensureParentDir fs path = (.error ("Failed to create directory: " ++ e), fs1) := by
    unfold ensureParentDir
    rw [hpar]
    dsimp only
    rw [hfail]
  refine ⟨?_, hfiles, by rw [hfiles]⟩
  unfold write_file
  rw [hens]

/-- C8 witness: a refused parent directory leaves the old file in
place. -/
theorem write_file_dir_error_no_write_witness :
    write_file ⟨[(["d", "f"], "old")], [], [["d"]], []⟩ ["d", "f"] "new" =
      (.error ("Failed to create directory: " ++ "Permission denied (os error 13)"),
        ⟨[(["d", "f"], "old")], [], [["d"]], []⟩)
    ∧ FS.files ⟨[(["d", "f"], "old")], [], [["d"]], []⟩ =
        FS.files ⟨[(["d", "f"], "old")], [], [["d"]], []⟩
    ∧ lookupFile (FS.files ⟨[(["d", "f"], "old")], [], [["d"]], []⟩) ["d", "f"] =
        lookupFile (FS.files ⟨[(["d", "f"], "old")], [], [["d"]], []⟩) ["d", "f"] :=
  write_file_dir_error_no_write ⟨[(["d", "f"], "old")], [], [["d"]], []⟩
    ⟨[(["d", "f"], "old")], [], [["d"]], []⟩ ["d", "f"] ["d"] "new"
    "Permission denied (os error 13)" rfl rfl

/-- C9: the dialog commands never take the error branch: every
invocation returns a successful result. -/
theorem dialogs_never_error (env : DialogEnv) (name : String)
    (filters : List DialogFilter) (multiple : Bool) :
    (∃ v, show_save_dialog env name filters = .ok v)
    ∧ (∃ l, show_open_dialog env multiple filters = .ok l) := by
  refine ⟨⟨_, rfl⟩, ?_⟩
  cases multiple
  · exact ⟨_, rfl⟩
  · exact ⟨_, rfl⟩

/-- C10: a successful `write_file` over an existing file replaces the
old contents entirely: the subsequent read returns exactly the new
content. -/
theorem write_file_replaces_contents (fs fs2 : FS) (path : FilePath)
    (content old : String)
    (hold : lookupFile fs.files path = some old)
    (h : write_file fs path content = (.ok (), fs2)) :
    read_file fs2 path = .ok content := by
  unfold read_file osRead
  rw [write_file_stores fs fs2 path content h]

/-- C10 witness: overwriting "old" with "new" then reading gives
"new". -/
theorem write_file_replaces_contents_witness :
    read_file ⟨[(["d", "f"], "new")], [["d"], ["d"]], [], []⟩ ["d", "f"] = .ok ("new") :=
  write_file_replaces_contents ⟨[(["d", "f"], "old")], [["d"]], [], []⟩
    ⟨[(["d", "f"], "new")], [["d"], ["d"]], [], []⟩ ["d", "f"] "new" "old" rfl rfl
